import Mathlib

/-!
Shallow embedding of `oauthlib/oauth2/rfc6749/grant_types/openid_connect.py`
(the OpenID Connect layer over the OAuth2 grant engines), together with
theorems settling the specification claims about it.

Modelling conventions:
* Optional Python string attributes become `Option String`; Python truthiness
  of such a value (`if request.id_token_hint`) is `truthyStr`.
* The JSON value produced by `json.loads` is a small `Json` inductive; the
  parser itself is external standard-library code, so the pipeline is
  parametrised over `loads : String → Except String Json` (an `Except.error`
  models a raised `ValueError`).
* `request.claims` holds either the inbound raw JSON-encoded string
  (`ClaimsField.raw`) or, after the in-place mutation on line 173 of the
  source, the parsed value (`ClaimsField.parsed`).
* Raised exceptions become `Except.error` carrying an `OIDCError`; the
  pipeline also returns the final state of the (mutated) request and the
  ordered trace of `RequestValidator` calls it made, so that short-circuit
  claims are statable.
-/

/-- A JSON value, the result type of `json.loads`. Arrays and objects are
encoded with explicit nil/cons constructors (rather than nested `List`s) so
that equality is derivably decidable; `objNil` is the empty mapping `{}`. -/
inductive Json where
  | null
  | bool (b : Bool)
  | num (n : Int)
  | str (s : String)
  | arrNil
  | arrCons (head : Json) (tail : Json)
  | objNil
  | objCons (key : String) (val : Json) (rest : Json)
deriving Repr, DecidableEq

/-- The `claims` attribute of a request: the raw inbound JSON-encoded string
(possibly absent), or the parsed value after the pipeline's in-place
mutation (`request.claims = loads(request.claims) if request.claims else {}`). -/
inductive ClaimsField where
  | raw (s : Option String)
  | parsed (j : Json)
deriving Repr, DecidableEq

/-- Python truthiness of an optional string: `None` and `""` are falsy. -/
def truthyStr : Option String → Bool
  | none => false
  | some s => s != ""

/-- Python truthiness of a parsed JSON value (empty containers are falsy). -/
def Json.pyTruthy : Json → Bool
  | .null => false
  | .bool b => b
  | .num n => n != 0
  | .str s => s != ""
  | .arrNil => false
  | .arrCons _ _ => true
  | .objNil => false
  | .objCons _ _ _ => true

/-- The authorization request (`oauthlib` `Request` attributes read by this
module). Mutation of `claims` is modelled by returning an updated copy. -/
structure Request where
  scopes : List String
  prompt : Option String
  display : Option String
  max_age : Option Int
  ui_locales : Option String
  id_token_hint : Option String
  login_hint : Option String
  acr_values : Option String
  claims : ClaimsField
  response_type : Option String
deriving Repr, DecidableEq

/-- The `request_info` dictionary returned on successful validation
(source lines 180-186). -/
structure RequestInfo where
  display : Option String
  prompt : List String
  ui_locales : List String
  id_token_hint : Option String
  login_hint : Option String
deriving Repr, DecidableEq

/-- The capability interface consumed from the application-supplied
`RequestValidator` (only the operations this module calls). -/
structure RequestValidator where
  validate_silent_login : Request → Bool
  validate_silent_authorization : Request → Bool
  validate_user_match : Option String → List String → Json → Request → Bool

/-- The exceptions this module can raise, plus the propagated JSON parse
failure from `json.loads`. -/
inductive OIDCError where
  | invalidRequestError (description : String)
  | loginRequired (description : Option String)
  | consentRequired
  | jsonParseError (msg : String)
deriving Repr, DecidableEq

/-- Which `RequestValidator` operation was invoked (for call-order traces). -/
inductive ValidatorCall where
  | validate_silent_login
  | validate_silent_authorization
  | validate_user_match
deriving Repr, DecidableEq

/-- Auxiliary for Python `str.split()`: collect maximal runs of
non-whitespace characters. -/
def splitWsAux : List Char → List Char → List String
  | [], acc => if acc.isEmpty then [] else [String.mk acc.reverse]
  | c :: cs, acc =>
    if c.isWhitespace then
      if acc.isEmpty then splitWsAux cs []
      else String.mk acc.reverse :: splitWsAux cs []
    else splitWsAux cs (c :: acc)

/-- Python `s.split()` (no argument): split on runs of whitespace, keeping
no empty tokens. -/
def pySplit (s : String) : List String := splitWsAux s.data []

/-- The Python expression `s.split() if s else []` on an optional string. -/
def pySplitOpt : Option String → List String
  | none => []
  | some s => if s == "" then [] else pySplit s

/-- The Python expression `loads(request.claims) if request.claims else {}`
(source line 173). A falsy `claims` yields the empty mapping without calling
`loads`; a truthy raw string is handed to `loads`; a truthy already-parsed
value would make `loads` raise a `TypeError` (it requires a string). -/
def parseClaims (loads : String → Except String Json) :
    ClaimsField → Except String Json
  | .raw none => .ok .objNil
  | .raw (some s) => if s == "" then .ok .objNil else loads s
  | .parsed j =>
    if j.pyTruthy then .error "TypeError: the JSON object must be str, not dict"
    else .ok .objNil

deriving instance DecidableEq for Except

/-- Outcome of running the pipeline: the returned value (`none` is Python
`None`, the no-op signal) or the raised error, the final state of the
request (whose `claims` may have been mutated in place), and the ordered
trace of `RequestValidator` calls made. -/
structure ValidationOutcome where
  result : Except OIDCError (Option RequestInfo)
  request : Request
  calls : List ValidatorCall
deriving Repr, DecidableEq

/-- Source lines 173-188 of `openid_authorization_validator`: the in-place
claims parsing (`request.claims = loads(request.claims) if request.claims
else {}`), the `validate_user_match` check, and the construction of the
returned `request_info` dictionary. `calls` is the trace of validator calls
made by the earlier lines. -/
def claimsAndUserMatchStage (rv : RequestValidator)
    (loads : String → Except String Json) (request : Request)
    (calls : List ValidatorCall) : ValidationOutcome :=
  match parseClaims loads request.claims with
  | .error msg => ⟨.error (.jsonParseError msg), request, calls⟩
  | .ok j =>
    let request' := { request with claims := .parsed j }
    if rv.validate_user_match request'.id_token_hint request'.scopes j request' = false then
      ⟨.error (.loginRequired
          (some "Session user does not match client supplied user.")),
        request', calls ++ [.validate_user_match]⟩
    else
      ⟨.ok (some {
          display := request'.display
          prompt := pySplitOpt request'.prompt
          ui_locales := pySplitOpt request'.ui_locales
          id_token_hint := request'.id_token_hint
          login_hint := request'.login_hint }),
        request', calls ++ [.validate_user_match]⟩

/-- `OpenIDConnectBase.openid_authorization_validator` (source lines
27-188), embedded line by line with explicit state passing; the early
`raise` statements become `Except.error` results, and the lines after the
`prompt == 'none'` block are `claimsAndUserMatchStage`. -/
def openid_authorization_validator (rv : RequestValidator)
    (loads : String → Except String Json) (request : Request) :
    ValidationOutcome :=
  -- Treat it as normal OAuth 2 auth code request if openid is not present
  if "openid" ∉ request.scopes then
    ⟨.ok none, request, []⟩
  else if request.prompt = some "none" ∧ truthyStr request.id_token_hint = false then
    ⟨.error (.invalidRequestError "Prompt is set to none yet id_token_hint is missing."),
      request, []⟩
  else if request.prompt = some "none" then
    if rv.validate_silent_login request = false then
      ⟨.error (.loginRequired none), request, [.validate_silent_login]⟩
    else if rv.validate_silent_authorization request = false then
      ⟨.error .consentRequired, request,
        [.validate_silent_login, .validate_silent_authorization]⟩
    else
      claimsAndUserMatchStage rv loads request
        [.validate_silent_login, .validate_silent_authorization]
  else
    claimsAndUserMatchStage rv loads request []

/-- `OpenIDConnectBase.add_id_token` (source lines 19-25): returns the token
unchanged when `"openid"` is not among the scopes, and otherwise falls off
the end of the function body (the identity-token construction is an
unimplemented TODO), returning Python `None`, modelled as `none`. -/
def add_id_token {α : Type} (token : α) (request : Request) : Option α :=
  -- Treat it as normal OAuth 2 auth code request if openid is not present
  if "openid" ∉ request.scopes then some token
  else none

/-- A request with every optional attribute absent, used as the base of the
concrete requests in the witnesses and counterexamples below. -/
def emptyRequest : Request :=
  { scopes := [], prompt := none, display := none, max_age := none,
    ui_locales := none, id_token_hint := none, login_hint := none,
    acr_values := none, claims := .raw none, response_type := none }

/-- A `RequestValidator` all of whose operations constantly answer `b`. -/
def constValidator (b : Bool) : RequestValidator :=
  { validate_silent_login := fun _ => b
    validate_silent_authorization := fun _ => b
    validate_user_match := fun _ _ _ _ => b }

/-- A concrete stand-in for `json.loads` on the strings used in this
development: a lone opening brace is malformed JSON, so `json.loads`
raises; anything else parses (to the empty mapping, whose exact value is
irrelevant to the module under verification). -/
def mockLoads : String → Except String Json :=
  fun s =>
    if s == "\x7b" then .error "Expecting property name enclosed in double quotes"
    else .ok Json.objNil

/-- Branch characterization: no `"openid"` scope means the pipeline is the
no-op return with no validator calls and an untouched request. -/
theorem run_not_openid (rv : RequestValidator)
    (loads : String → Except String Json) (request : Request)
    (h : "openid" ∉ request.scopes) :
    openid_authorization_validator rv loads request = ⟨.ok none, request, []⟩ := by
  simp [openid_authorization_validator, h]

/-- Branch characterization: `prompt == 'none'` with a falsy `id_token_hint`
raises `InvalidRequestError` before any validator call. -/
theorem run_prompt_none_no_hint (rv : RequestValidator)
    (loads : String → Except String Json) (request : Request)
    (h1 : "openid" ∈ request.scopes)
    (h2 : request.prompt = some "none")
    (h3 : truthyStr request.id_token_hint = false) :
    openid_authorization_validator rv loads request =
      ⟨.error (.invalidRequestError "Prompt is set to none yet id_token_hint is missing."),
        request, []⟩ := by
  simp [openid_authorization_validator, h1, h2, h3]

/-- Branch characterization: under `prompt == 'none'` with a truthy hint, a
failing `validate_silent_login` raises `LoginRequired` (no description)
after exactly one validator call. -/
theorem run_silent_login_failed (rv : RequestValidator)
    (loads : String → Except String Json) (request : Request)
    (h1 : "openid" ∈ request.scopes)
    (h2 : request.prompt = some "none")
    (h3 : truthyStr request.id_token_hint = true)
    (h4 : rv.validate_silent_login request = false) :
    openid_authorization_validator rv loads request =
      ⟨.error (.loginRequired none), request, [.validate_silent_login]⟩ := by
  simp [openid_authorization_validator, h1, h2, h3, h4]

/-- Branch characterization: under `prompt == 'none'` with a truthy hint and
a passing silent login, a failing `validate_silent_authorization` raises
`ConsentRequired`. -/
theorem run_silent_authorization_failed (rv : RequestValidator)
    (loads : String → Except String Json) (request : Request)
    (h1 : "openid" ∈ request.scopes)
    (h2 : request.prompt = some "none")
    (h3 : truthyStr request.id_token_hint = true)
    (h4 : rv.validate_silent_login request = true)
    (h5 : rv.validate_silent_authorization request = false) :
    openid_authorization_validator rv loads request =
      ⟨.error .consentRequired, request,
        [.validate_silent_login, .validate_silent_authorization]⟩ := by
  simp [openid_authorization_validator, h1, h2, h3, h4, h5]

/-- Branch characterization: under `prompt == 'none'` with a truthy hint,
when both silent checks pass the pipeline continues with the claims and
user-match lines. -/
theorem run_prompt_none_passed (rv : RequestValidator)
    (loads : String → Except String Json) (request : Request)
    (h1 : "openid" ∈ request.scopes)
    (h2 : request.prompt = some "none")
    (h3 : truthyStr request.id_token_hint = true)
    (h4 : rv.validate_silent_login request = true)
    (h5 : rv.validate_silent_authorization request = true) :
    openid_authorization_validator rv loads request =
      claimsAndUserMatchStage rv loads request
        [.validate_silent_login, .validate_silent_authorization] := by
  simp [openid_authorization_validator, h1, h2, h3, h4, h5]

/-- Branch characterization: when `prompt` is not the string `'none'`, the
whole `prompt == 'none'` block is skipped. -/
theorem run_prompt_not_none (rv : RequestValidator)
    (loads : String → Except String Json) (request : Request)
    (h1 : "openid" ∈ request.scopes)
    (h2 : request.prompt ≠ some "none") :
    openid_authorization_validator rv loads request =
      claimsAndUserMatchStage rv loads request [] := by
  simp [openid_authorization_validator, h1, h2]

/-- Stage characterization: a claims parse failure propagates as a raised
parse error, before `validate_user_match` is called. -/
theorem stage_parse_error (rv : RequestValidator)
    (loads : String → Except String Json) (request : Request)
    (calls : List ValidatorCall) (msg : String)
    (hp : parseClaims loads request.claims = .error msg) :
    claimsAndUserMatchStage rv loads request calls =
      ⟨.error (.jsonParseError msg), request, calls⟩ := by
  simp [claimsAndUserMatchStage, hp]

/-- Stage characterization: after a successful claims parse, a failing
`validate_user_match` raises `LoginRequired` with the session-user message,
on the request whose `claims` has been replaced by the parsed value. -/
theorem stage_user_match_failed (rv : RequestValidator)
    (loads : String → Except String Json) (request : Request)
    (calls : List ValidatorCall) (j : Json)
    (hp : parseClaims loads request.claims = .ok j)
    (hm : rv.validate_user_match request.id_token_hint request.scopes j
        { request with claims := .parsed j } = false) :
    claimsAndUserMatchStage rv loads request calls =
      ⟨.error (.loginRequired
          (some "Session user does not match client supplied user.")),
        { request with claims := .parsed j }, calls ++ [.validate_user_match]⟩ := by
  simp [claimsAndUserMatchStage, hp, hm]

/-- Stage characterization: after a successful claims parse and a passing
`validate_user_match`, the pipeline returns the `request_info` dictionary
built from the (claims-mutated) request. -/
theorem stage_user_match_passed (rv : RequestValidator)
    (loads : String → Except String Json) (request : Request)
    (calls : List ValidatorCall) (j : Json)
    (hp : parseClaims loads request.claims = .ok j)
    (hm : rv.validate_user_match request.id_token_hint request.scopes j
        { request with claims := .parsed j } = true) :
    claimsAndUserMatchStage rv loads request calls =
      ⟨.ok (some ⟨request.display, pySplitOpt request.prompt,
          pySplitOpt request.ui_locales, request.id_token_hint, request.login_hint⟩),
        { request with claims := .parsed j }, calls ++ [.validate_user_match]⟩ := by
  simp [claimsAndUserMatchStage, hp, hm]

def c1Request : Request :=
  { emptyRequest with scopes := ["openid"], prompt := some "none", id_token_hint := some "eyJhbGciOiJSUzI1NiJ9" }

/-- Claim C1: for every request with `"openid"` in scopes, `prompt = "none"`
and a present (truthy) `id_token_hint`, if `validate_silent_login` answers
false the pipeline fails with `LoginRequired`, and
`validate_silent_authorization` is never invoked in that run (login is
checked strictly before consent). -/
theorem silent_login_checked_before_consent
    (rv : RequestValidator) (loads : String → Except String Json)
    (request : Request)
    (h1 : "openid" ∈ request.scopes)
    (h2 : request.prompt = some "none")
    (h3 : truthyStr request.id_token_hint = true)
    (h4 : rv.validate_silent_login request = false) :
    (openid_authorization_validator rv loads request).result =
      .error (.loginRequired none) ∧
    ValidatorCall.validate_silent_authorization ∉
      (openid_authorization_validator rv loads request).calls := by
  rw [run_silent_login_failed rv loads request h1 h2 h3 h4]
  refine ⟨rfl, ?_⟩
  simp

theorem silent_login_checked_before_consent_witness :
    (openid_authorization_validator (constValidator false) mockLoads c1Request).result =
      .error (.loginRequired none) ∧
    ValidatorCall.validate_silent_authorization ∉
      (openid_authorization_validator (constValidator false) mockLoads c1Request).calls :=
  silent_login_checked_before_consent (constValidator false) mockLoads c1Request
    (by decide) (by decide) (by decide) (by decide)

def c2Request : Request :=
  { emptyRequest with scopes := ["openid", "profile"], prompt := some "none", id_token_hint := some "" }

/-- Claim C2: for every request with `"openid"` in scopes, if
`prompt = "none"` and `id_token_hint` is absent or empty, the pipeline fails
with `InvalidRequestError`, regardless of all other request fields and of
any `RequestValidator` answers. -/
theorem prompt_none_requires_id_token_hint
    (rv : RequestValidator) (loads : String → Except String Json)
    (request : Request)
    (h1 : "openid" ∈ request.scopes)
    (h2 : request.prompt = some "none")
    (h3 : truthyStr request.id_token_hint = false) :
    (openid_authorization_validator rv loads request).result =
      .error (.invalidRequestError "Prompt is set to none yet id_token_hint is missing.") := by
  rw [run_prompt_none_no_hint rv loads request h1 h2 h3]

theorem prompt_none_requires_id_token_hint_witness :
    (openid_authorization_validator (constValidator true) mockLoads c2Request).result =
      .error (.invalidRequestError "Prompt is set to none yet id_token_hint is missing.") :=
  prompt_none_requires_id_token_hint (constValidator true) mockLoads c2Request
    (by decide) (by decide) (by decide)

def c3Request : Request :=
  { emptyRequest with scopes := ["openid"], prompt := some "none", id_token_hint := some "eyJhbGciOiJSUzI1NiJ9" }

def c3Validator : RequestValidator :=
  { validate_silent_login := fun _ => true
    validate_silent_authorization := fun _ => false
    validate_user_match := fun _ _ _ _ => true }

/-- Claim C3: for every request with `"openid"` in scopes, `prompt = "none"`
and a present `id_token_hint`, if `validate_silent_login` answers true and
`validate_silent_authorization` answers false, the pipeline fails with
`ConsentRequired`. -/
theorem silent_authorization_failure_consent_required
    (rv : RequestValidator) (loads : String → Except String Json)
    (request : Request)
    (h1 : "openid" ∈ request.scopes)
    (h2 : request.prompt = some "none")
    (h3 : truthyStr request.id_token_hint = true)
    (h4 : rv.validate_silent_login request = true)
    (h5 : rv.validate_silent_authorization request = false) :
    (openid_authorization_validator rv loads request).result =
      .error .consentRequired := by
  rw [run_silent_authorization_failed rv loads request h1 h2 h3 h4 h5]

theorem silent_authorization_failure_consent_required_witness :
    (openid_authorization_validator c3Validator mockLoads c3Request).result =
      .error .consentRequired :=
  silent_authorization_failure_consent_required c3Validator mockLoads c3Request
    (by decide) (by decide) (by decide) (by decide) (by decide)

def c4Request : Request :=
  { emptyRequest with scopes := ["profile", "email"], claims := .raw (some "\x7b\"sub\": \"alice\"\x7d") }

/-- Claim C4: for every request without `"openid"` among its scopes, the
pipeline returns the no-op signal (Python `None`) without failing, leaves
the request untouched and calls no `RequestValidator` operation, and
`add_id_token` returns the token response unchanged. -/
theorem non_openid_noop {α : Type}
    (rv : RequestValidator) (loads : String → Except String Json)
    (request : Request) (token : α)
    (h : "openid" ∉ request.scopes) :
    openid_authorization_validator rv loads request = ⟨.ok none, request, []⟩ ∧
    add_id_token token request = some token :=
  ⟨run_not_openid rv loads request h, by simp [add_id_token, h]⟩

theorem non_openid_noop_witness :
    openid_authorization_validator (constValidator false) mockLoads c4Request =
      ⟨.ok none, c4Request, []⟩ ∧
    add_id_token [("access_token", "2YotnFZFEjr1zCsicMWpAA")] c4Request =
      some [("access_token", "2YotnFZFEjr1zCsicMWpAA")] :=
  non_openid_noop (constValidator false) mockLoads c4Request
    [("access_token", "2YotnFZFEjr1zCsicMWpAA")] (by decide)

/-- Claim C5 (records the code bug): on a request carrying the `"openid"`
scope, `add_id_token` falls off the end of its TODO-only body and returns
Python `None` instead of a token response with an identity token attached. -/
theorem add_id_token_returns_none_for_openid :
    add_id_token [("access_token", "SlAV32hkKG")]
      { emptyRequest with scopes := ["openid"] } = none := by decide

/-- When the pipeline does not fail on an OIDC request, it necessarily ran
the claims/user-match lines (with some earlier validator-call trace). -/
theorem run_reaches_stage
    (rv : RequestValidator) (loads : String → Except String Json)
    (request : Request) (r : Option RequestInfo)
    (hopen : "openid" ∈ request.scopes)
    (hok : (openid_authorization_validator rv loads request).result = .ok r) :
    ∃ calls, openid_authorization_validator rv loads request =
      claimsAndUserMatchStage rv loads request calls := by
  by_cases h2 : request.prompt = some "none"
  · by_cases h3 : truthyStr request.id_token_hint = true
    · by_cases h4 : rv.validate_silent_login request = true
      · by_cases h5 : rv.validate_silent_authorization request = true
        · exact ⟨_, run_prompt_none_passed rv loads request hopen h2 h3 h4 h5⟩
        · rw [run_silent_authorization_failed rv loads request hopen h2 h3 h4
            (by simpa using h5)] at hok
          simp at hok
      · rw [run_silent_login_failed rv loads request hopen h2 h3
          (by simpa using h4)] at hok
        simp at hok
    · rw [run_prompt_none_no_hint rv loads request hopen h2
        (by simpa using h3)] at hok
      simp at hok
  · exact ⟨_, run_prompt_not_none rv loads request hopen h2⟩

/-- When the claims/user-match lines do not fail, the claims parse succeeded
and the stage returned the `request_info` built from the mutated request. -/
theorem stage_ok
    (rv : RequestValidator) (loads : String → Except String Json)
    (request : Request) (calls : List ValidatorCall) (r : Option RequestInfo)
    (hok : (claimsAndUserMatchStage rv loads request calls).result = .ok r) :
    ∃ j, parseClaims loads request.claims = .ok j ∧
      claimsAndUserMatchStage rv loads request calls =
        ⟨.ok (some ⟨request.display, pySplitOpt request.prompt,
            pySplitOpt request.ui_locales, request.id_token_hint, request.login_hint⟩),
          { request with claims := .parsed j }, calls ++ [.validate_user_match]⟩ := by
  cases hp : parseClaims loads request.claims with
  | error msg =>
    rw [stage_parse_error rv loads request calls msg hp] at hok
    simp at hok
  | ok j =>
    by_cases hm : rv.validate_user_match request.id_token_hint request.scopes j
        { request with claims := .parsed j } = true
    · exact ⟨j, rfl, stage_user_match_passed rv loads request calls j hp hm⟩
    · rw [stage_user_match_failed rv loads request calls j hp (by simpa using hm)] at hok
      simp at hok

def c6Request : Request :=
  { emptyRequest with scopes := ["profile"], claims := .raw (some "\x7b\"sub\": \"alice\"\x7d") }

/-- Claim C6 counterexample: a request without the `"openid"` scope whose
`claims` attribute is a raw JSON-encoded string passes the pipeline without
failing (no-op branch), yet its `claims` is afterwards still the raw
string — not a mapping — refuting the claim for the no-op branch. -/
theorem claims_left_raw_counterexample :
    (openid_authorization_validator (constValidator true) mockLoads c6Request).result =
      .ok none ∧
    (openid_authorization_validator (constValidator true) mockLoads c6Request).request.claims =
      .raw (some "\x7b\"sub\": \"alice\"\x7d") := by decide

/-- Claim C6 (amended): for every request carrying the `"openid"` scope on
which the pipeline returns without failing, the `claims` attribute is
afterwards the parsed value — the empty mapping when the inbound claims
string was absent or empty — never the raw JSON-encoded string. -/
theorem claims_parsed_after_openid_success
    (rv : RequestValidator) (loads : String → Except String Json)
    (request : Request) (r : Option RequestInfo)
    (hopen : "openid" ∈ request.scopes)
    (hok : (openid_authorization_validator rv loads request).result = .ok r) :
    (∃ j, (openid_authorization_validator rv loads request).request.claims =
      ClaimsField.parsed j) ∧
    ((request.claims = .raw none ∨ request.claims = .raw (some "")) →
      (openid_authorization_validator rv loads request).request.claims =
        ClaimsField.parsed Json.objNil) := by
  obtain ⟨calls, hrun⟩ := run_reaches_stage rv loads request r hopen hok
  rw [hrun] at hok ⊢
  obtain ⟨j, hp, hstage⟩ := stage_ok rv loads request calls r hok
  rw [hstage]
  constructor
  · exact ⟨j, rfl⟩
  · intro hraw
    have hj : j = Json.objNil := by
      rcases hraw with h | h <;> rw [h] at hp <;> simp [parseClaims] at hp <;>
        exact hp.symm
    rw [hj]

def c6OkRequest : Request := { emptyRequest with scopes := ["openid"] }

theorem claims_parsed_after_openid_success_witness :
    (∃ j, (openid_authorization_validator (constValidator true) mockLoads c6OkRequest).request.claims =
      ClaimsField.parsed j) ∧
    ((c6OkRequest.claims = .raw none ∨ c6OkRequest.claims = .raw (some "")) →
      (openid_authorization_validator (constValidator true) mockLoads c6OkRequest).request.claims =
        ClaimsField.parsed Json.objNil) :=
  claims_parsed_after_openid_success (constValidator true) mockLoads c6OkRequest
    (some (RequestInfo.mk none [] [] none none)) (by decide) (by decide)

/-- Claim C7: for every request with `"openid"` in scopes that passes the
prompt=none checks, an absent or empty `claims` attribute is parsed to the
empty mapping, and a malformed `claims` JSON string makes the pipeline
propagate the parse failure itself, rather than suppressing it or
converting it into `LoginRequired` or `ConsentRequired`. -/
theorem claims_absent_empty_or_malformed
    (rv : RequestValidator) (loads : String → Except String Json)
    (request : Request)
    (hopen : "openid" ∈ request.scopes)
    (hck : request.prompt = some "none" →
      truthyStr request.id_token_hint = true ∧
      rv.validate_silent_login request = true ∧
      rv.validate_silent_authorization request = true) :
    ((request.claims = .raw none ∨ request.claims = .raw (some "")) →
      (openid_authorization_validator rv loads request).request.claims =
        ClaimsField.parsed Json.objNil) ∧
    (∀ s msg, request.claims = .raw (some s) → s ≠ "" → loads s = .error msg →
      (openid_authorization_validator rv loads request).result =
        .error (.jsonParseError msg)) := by
  have hrun : ∃ calls, openid_authorization_validator rv loads request =
      claimsAndUserMatchStage rv loads request calls := by
    by_cases h2 : request.prompt = some "none"
    · obtain ⟨h3, h4, h5⟩ := hck h2
      exact ⟨_, run_prompt_none_passed rv loads request hopen h2 h3 h4 h5⟩
    · exact ⟨_, run_prompt_not_none rv loads request hopen h2⟩
  obtain ⟨calls, hrun⟩ := hrun
  rw [hrun]
  constructor
  · intro hraw
    have hp : parseClaims loads request.claims = .ok Json.objNil := by
      rcases hraw with h | h <;> simp [parseClaims, h]
    by_cases hm : rv.validate_user_match request.id_token_hint request.scopes Json.objNil
        { request with claims := .parsed Json.objNil } = true
    · rw [stage_user_match_passed rv loads request calls Json.objNil hp hm]
    · rw [stage_user_match_failed rv loads request calls Json.objNil hp (by simpa using hm)]
  · intro s msg hs hne hload
    have hp : parseClaims loads request.claims = .error msg := by
      rw [hs]
      simp [parseClaims, hne, hload]
    rw [stage_parse_error rv loads request calls msg hp]

def c7aRequest : Request := { emptyRequest with scopes := ["openid"], claims := .raw (some "") }

def c7bRequest : Request := { emptyRequest with scopes := ["openid"], claims := .raw (some "\x7b") }

theorem claims_absent_empty_or_malformed_witness :
    (openid_authorization_validator (constValidator true) mockLoads c7aRequest).request.claims =
      ClaimsField.parsed Json.objNil ∧
    (openid_authorization_validator (constValidator true) mockLoads c7bRequest).result =
      .error (.jsonParseError "Expecting property name enclosed in double quotes") :=
  ⟨(claims_absent_empty_or_malformed (constValidator true) mockLoads c7aRequest
      (by decide) (by decide)).1 (Or.inr rfl),
   (claims_absent_empty_or_malformed (constValidator true) mockLoads c7bRequest
      (by decide) (by decide)).2 "\x7b" "Expecting property name enclosed in double quotes"
      rfl (by decide) rfl⟩

def c8Request : Request :=
  { emptyRequest with scopes := ["openid"], id_token_hint := some "eyJhbGciOiJSUzI1NiJ9" }

def c8Validator : RequestValidator :=
  { validate_silent_login := fun _ => true
    validate_silent_authorization := fun _ => true
    validate_user_match := fun _ _ _ _ => false }

/-- Claim C8 counterexample: when `validate_user_match` answers false the
raised `LoginRequired` carries the source's description string
"Session user does not match client supplied user." (capitalised, with a
full stop), not the claimed lowercase
"session user does not match client supplied user". -/
theorem user_match_message_counterexample :
    (openid_authorization_validator c8Validator mockLoads c8Request).result =
      .error (.loginRequired (some "Session user does not match client supplied user.")) ∧
    (openid_authorization_validator c8Validator mockLoads c8Request).result ≠
      .error (.loginRequired (some "session user does not match client supplied user")) := by
  decide

/-- Claim C8 (amended): for every request with `"openid"` in scopes that
passes the prompt=none checks and whose claims parse succeeds, if
`validate_user_match` answers false the pipeline fails with `LoginRequired`
carrying the distinct description
"Session user does not match client supplied user.", and the check runs
(appears in the call trace) whatever the value of `prompt`. -/
theorem user_match_failure_login_required
    (rv : RequestValidator) (loads : String → Except String Json)
    (request : Request) (j : Json)
    (hopen : "openid" ∈ request.scopes)
    (hck : request.prompt = some "none" →
      truthyStr request.id_token_hint = true ∧
      rv.validate_silent_login request = true ∧
      rv.validate_silent_authorization request = true)
    (hp : parseClaims loads request.claims = .ok j)
    (hm : rv.validate_user_match request.id_token_hint request.scopes j
        { request with claims := .parsed j } = false) :
    (openid_authorization_validator rv loads request).result =
      .error (.loginRequired (some "Session user does not match client supplied user.")) ∧
    ValidatorCall.validate_user_match ∈ (openid_authorization_validator rv loads request).calls := by
  have hrun : ∃ calls, openid_authorization_validator rv loads request =
      claimsAndUserMatchStage rv loads request calls := by
    by_cases h2 : request.prompt = some "none"
    · obtain ⟨h3, h4, h5⟩ := hck h2
      exact ⟨_, run_prompt_none_passed rv loads request hopen h2 h3 h4 h5⟩
    · exact ⟨_, run_prompt_not_none rv loads request hopen h2⟩
  obtain ⟨calls, hrun⟩ := hrun
  rw [hrun, stage_user_match_failed rv loads request calls j hp hm]
  refine ⟨rfl, ?_⟩
  simp

theorem user_match_failure_login_required_witness :
    (openid_authorization_validator c8Validator mockLoads c8Request).result =
      .error (.loginRequired (some "Session user does not match client supplied user.")) ∧
    ValidatorCall.validate_user_match ∈
      (openid_authorization_validator c8Validator mockLoads c8Request).calls :=
  user_match_failure_login_required c8Validator mockLoads c8Request Json.objNil
    (by decide) (by decide) rfl (by decide)

def c9aRequest : Request :=
  { emptyRequest with scopes := ["openid"], prompt := some "none" }

def c9bRequest : Request :=
  { emptyRequest with scopes := ["openid"], claims := .raw (some "\x7b") }

/-- Claim C9 counterexample: even with every `RequestValidator` operation
answering true, a request with `"openid"` in scopes need not get a
`RequestInfo` back: `prompt = "none"` without an `id_token_hint` raises
`InvalidRequestError`, and a malformed claims string propagates the JSON
parse failure; the claim therefore also needs the prompt=none checks and
the claims parse to pass. -/
theorem request_info_counterexample :
    (openid_authorization_validator (constValidator true) mockLoads c9aRequest).result =
      .error (.invalidRequestError "Prompt is set to none yet id_token_hint is missing.") ∧
    (openid_authorization_validator (constValidator true) mockLoads c9bRequest).result =
      .error (.jsonParseError "Expecting property name enclosed in double quotes") := by
  decide

/-- Claim C9 (amended): for every request with `"openid"` in scopes, inbound
(unparsed) claims, that passes the prompt=none checks, whose claims string
parses, and for which all `RequestValidator` operations answer true, the
pipeline returns a `RequestInfo` whose `prompt` and `ui_locales` are the
source strings split on whitespace into ordered token sequences, the empty
sequence when the source attribute is absent. -/
theorem request_info_on_success
    (rv : RequestValidator) (loads : String → Except String Json)
    (request : Request)
    (hopen : "openid" ∈ request.scopes)
    (hck : request.prompt = some "none" →
      truthyStr request.id_token_hint = true ∧
      rv.validate_silent_login request = true ∧
      rv.validate_silent_authorization request = true)
    (hclaims : ∃ s, request.claims = ClaimsField.raw s)
    (hparse : ∀ s, request.claims = .raw (some s) → s ≠ "" → ∃ j, loads s = .ok j)
    (hmatch : ∀ hint scopes j r, rv.validate_user_match hint scopes j r = true) :
    ∃ info, (openid_authorization_validator rv loads request).result = .ok (some info) ∧
      info.prompt = pySplitOpt request.prompt ∧
      info.ui_locales = pySplitOpt request.ui_locales ∧
      (request.prompt = none → info.prompt = []) ∧
      (request.ui_locales = none → info.ui_locales = []) := by
  have hrun : ∃ calls, openid_authorization_validator rv loads request =
      claimsAndUserMatchStage rv loads request calls := by
    by_cases h2 : request.prompt = some "none"
    · obtain ⟨h3, h4, h5⟩ := hck h2
      exact ⟨_, run_prompt_none_passed rv loads request hopen h2 h3 h4 h5⟩
    · exact ⟨_, run_prompt_not_none rv loads request hopen h2⟩
  obtain ⟨calls, hrun⟩ := hrun
  have hpj : ∃ j, parseClaims loads request.claims = .ok j := by
    obtain ⟨s, hs⟩ := hclaims
    cases s with
    | none => exact ⟨Json.objNil, by simp [parseClaims, hs]⟩
    | some t =>
      by_cases ht : t = ""
      · exact ⟨Json.objNil, by simp [parseClaims, hs, ht]⟩
      · obtain ⟨j, hj⟩ := hparse t hs ht
        exact ⟨j, by simp [parseClaims, hs, ht, hj]⟩
  obtain ⟨j, hp⟩ := hpj
  rw [hrun, stage_user_match_passed rv loads request calls j hp (hmatch _ _ _ _)]
  refine ⟨_, rfl, rfl, rfl, fun h => ?_, fun h => ?_⟩ <;> simp [pySplitOpt, h]

def c9Request : Request :=
  { emptyRequest with
      scopes := ["openid"]
      prompt := some "login consent"
      ui_locales := some "fr-CA fr en"
      claims := .raw (some "") }

theorem request_info_on_success_witness :
    (∃ info, (openid_authorization_validator (constValidator true) mockLoads c9Request).result =
        .ok (some info) ∧
      info.prompt = pySplitOpt c9Request.prompt ∧
      info.ui_locales = pySplitOpt c9Request.ui_locales ∧
      (c9Request.prompt = none → info.prompt = []) ∧
      (c9Request.ui_locales = none → info.ui_locales = [])) ∧
    (openid_authorization_validator (constValidator true) mockLoads c9Request).result =
      .ok (some (RequestInfo.mk none ["login", "consent"] ["fr-CA", "fr", "en"] none none)) ∧
    (openid_authorization_validator (constValidator true) mockLoads c9Request).request.claims =
      ClaimsField.parsed Json.objNil :=
  ⟨request_info_on_success (constValidator true) mockLoads c9Request (by decide) (by decide)
      ⟨some "", rfl⟩
      (by intro s hs hne
          have h : ClaimsField.raw (some "") = ClaimsField.raw (some s) := hs
          injection h with h1
          injection h1 with h2
          exact absurd h2.symm hne)
      (fun _ _ _ _ => rfl),
   by decide, by decide⟩

/-- Names of the methods this module defines on `OpenIDConnectBase`
(source lines 17-188), inherited by each flow-composer subclass. -/
def openIDConnectBaseAttrs : List String :=
  ["add_id_token", "openid_authorization_validator"]

/-- Names of the methods available on an `OpenIDConnectImplicit` instance
from this module: its own `openid_implicit_authorization_validator`
(source lines 238-241) plus the inherited base-class methods. -/
def openIDConnectImplicitAttrs : List String :=
  "openid_implicit_authorization_validator" :: openIDConnectBaseAttrs

/-- Names of the methods available on an `OpenIDConnectHybrid` instance from
this module: it subclasses `OpenIDConnectBase` only (source line 246), so it
defines no methods of its own beyond the inherited ones. -/
def openIDConnectHybridAttrs : List String := openIDConnectBaseAttrs

/-- One constructor statement that touches an engine's hook registries.
Registering a validator or token modifier first evaluates the `self.<attr>`
argument, i.e. performs an attribute lookup on the instance. -/
inductive ConstructionStep where
  | registerResponseType (rtype : String)
  | registerAuthorizationValidator (attr : String)
  | registerTokenModifier (attr : String)

/-- The registration statements of `OpenIDConnectImplicit.__init__`
(source lines 229-235), in program order. -/
def openIDConnectImplicitConstruction : List ConstructionStep :=
  [.registerResponseType "id_token",
   .registerResponseType "id_token token",
   .registerAuthorizationValidator "openid_authorization_validator",
   .registerAuthorizationValidator "openid_implicit_authorization_validator",
   .registerTokenModifier "create_id_token"]

/-- The registration statements of `OpenIDConnectHybrid.__init__`
(source lines 253-268), in program order: first on its auth-code engine,
then on its implicit engine. -/
def openIDConnectHybridConstruction : List ConstructionStep :=
  [.registerResponseType "code id_token",
   .registerResponseType "code token",
   .registerResponseType "code id_token token",
   .registerAuthorizationValidator "openid_authorization_validator",
   .registerTokenModifier "add_id_token",
   .registerResponseType "id_token",
   .registerResponseType "id_token token",
   .registerAuthorizationValidator "openid_authorization_validator",
   .registerAuthorizationValidator "openid_implicit_authorization_validator",
   .registerTokenModifier "create_id_token"]

/-- Run a constructor's registration statements with `attrs` the set of
attribute names resolvable on `self` (methods of the class hierarchy); a
lookup of a missing name raises `AttributeError` carrying that name, which
aborts construction. -/
def runConstruction (attrs : List String) : List ConstructionStep → Except String Unit
  | [] => .ok ()
  | .registerResponseType _ :: rest => runConstruction attrs rest
  | .registerAuthorizationValidator a :: rest =>
    if a ∈ attrs then runConstruction attrs rest else .error a
  | .registerTokenModifier a :: rest =>
    if a ∈ attrs then runConstruction attrs rest else .error a

/-- Claim C10: `create_id_token` is defined nowhere in this module (only
`add_id_token` exists), so whenever the external base class supplies no
attribute of that name, constructing `OpenIDConnectImplicit` or
`OpenIDConnectHybrid` fails with an attribute-lookup error, whatever other
attributes the base class supplies. -/
theorem create_id_token_missing_construction_fails
    (baseAttrs : List String)
    (h : "create_id_token" ∉ baseAttrs) :
    "create_id_token" ∉ openIDConnectImplicitAttrs ∧
    "create_id_token" ∉ openIDConnectHybridAttrs ∧
    (∃ a, runConstruction (openIDConnectImplicitAttrs ++ baseAttrs)
      openIDConnectImplicitConstruction = .error a) ∧
    (∃ a, runConstruction (openIDConnectHybridAttrs ++ baseAttrs)
      openIDConnectHybridConstruction = .error a) := by
  refine ⟨by decide, by decide, ?_, ?_⟩
  · refine ⟨"create_id_token", ?_⟩
    simp [openIDConnectImplicitConstruction, runConstruction,
      openIDConnectImplicitAttrs, openIDConnectBaseAttrs, h]
  · by_cases hb : "openid_implicit_authorization_validator" ∈ baseAttrs
    · refine ⟨"create_id_token", ?_⟩
      simp [openIDConnectHybridConstruction, runConstruction,
        openIDConnectHybridAttrs, openIDConnectBaseAttrs, h, hb]
    · refine ⟨"openid_implicit_authorization_validator", ?_⟩
      simp [openIDConnectHybridConstruction, runConstruction,
        openIDConnectHybridAttrs, openIDConnectBaseAttrs, h, hb]

theorem create_id_token_missing_construction_fails_witness :
    "create_id_token" ∉ openIDConnectImplicitAttrs ∧
    "create_id_token" ∉ openIDConnectHybridAttrs ∧
    (∃ a, runConstruction (openIDConnectImplicitAttrs ++ [])
      openIDConnectImplicitConstruction = .error a) ∧
    (∃ a, runConstruction (openIDConnectHybridAttrs ++ [])
      openIDConnectHybridConstruction = .error a) :=
  create_id_token_missing_construction_fails [] (by decide)
